import Mathlib

/-!
Shallow embedding of the authentication and user-record subsystem of the
onboarding application (backend services `AuthService` and `UsersService`,
prisma data model from the migration files), together with theorems checking
the natural-language specification against it.

Conventions of the embedding:
* timestamps are `Nat` milliseconds (JavaScript `Date.now()` values);
* the persistent store is an explicit `Store` value threaded through every
  operation; each operation returns `Except ApiErr result × Store` so that
  error paths can still carry their side effects on the store;
* fresh random values (record ids, opaque tokens from `randomBytes`) are
  explicit parameters, making the nondeterminism of the source visible;
* `prisma.X.findUnique` is modelled by `List.find?` over the corresponding
  table, `deleteMany` by `List.filter`, `update` by `List.map` on the
  matching row, `create` by appending the new row.
-/

namespace OnboardingReboot

/-- Roles from the prisma `Role` enum: `ADMIN_RH`, `MANAGER`, `COLLABORATEUR`.
The specification names them TENANT_ADMIN, MANAGER, MEMBER respectively. -/
inductive Role where
  | ADMIN_RH
  | MANAGER
  | COLLABORATEUR
deriving DecidableEq

/-- Tenant (table `companies`): id, name, unique domain, creation time. -/
structure Company where
  id : String
  name : String
  domain : String
  createdAt : Nat
deriving DecidableEq

/-- Principal (table `users`): id, tenant id, unique email, role, optional
team id, creation time. -/
structure User where
  id : String
  companyId : String
  email : String
  role : Role
  teamId : Option String
  createdAt : Nat
deriving DecidableEq

/-- Magic link row (table `magic_links`): owner, unique token hash, nullable
redeemed-at timestamp, expiry, creation time. -/
structure MagicLink where
  id : String
  userId : String
  tokenHash : String
  usedAt : Option Nat
  expiresAt : Nat
  createdAt : Nat
deriving DecidableEq

/-- Refresh-session row (table `auth_sessions`): owner, unique token hash,
expiry, creation time. -/
structure AuthSession where
  id : String
  userId : String
  tokenHash : String
  expiresAt : Nat
  createdAt : Nat
deriving DecidableEq

/-- The persistent store: the four tables the core touches. -/
structure Store where
  companies : List Company
  users : List User
  magicLinks : List MagicLink
  sessions : List AuthSession
deriving DecidableEq

/-- Error codes thrown by the services (`ApiError.code` values). The spec
taxonomy maps onto them: PrincipalNotFound = `USER_NOT_FOUND`, InvalidToken =
`INVALID_TOKEN`, TokenExpired = `EXPIRED_TOKEN`, TokenAlreadyUsed =
`TOKEN_ALREADY_USED`, InvalidSession = `INVALID_SESSION`, SessionExpired =
`EXPIRED_SESSION`, InvalidRoleAssignment = `TEAM_ID_REQUIRED` /
`TEAM_ID_NOT_ALLOWED`. `INTERNAL_ERROR` stands for the 500-class wrappers and
is reachable in the model only on stores violating the foreign-key
invariants. -/
inductive ApiErr where
  | USER_NOT_FOUND
  | COMPANY_NOT_FOUND
  | INVALID_TOKEN
  | EXPIRED_TOKEN
  | TOKEN_ALREADY_USED
  | INVALID_SESSION
  | EXPIRED_SESSION
  | INVALID_REFRESH_TOKEN
  | EXPIRED_REFRESH_TOKEN
  | TEAM_ID_REQUIRED
  | TEAM_ID_NOT_ALLOWED
  | UNAUTHORIZED
  | USER_CREATION_FAILED
  | INTERNAL_ERROR
deriving DecidableEq

/-- Equality of `Except` results is decidable when both components are. -/
instance {ε α : Type} [DecidableEq ε] [DecidableEq α] : DecidableEq (Except ε α) :=
  fun x y =>
  match x, y with
  | .ok a, .ok b =>
    if h : a = b then .isTrue (by rw [h]) else .isFalse (fun hh => h (Except.ok.inj hh))
  | .error a, .error b =>
    if h : a = b then .isTrue (by rw [h]) else .isFalse (fun hh => h (Except.error.inj hh))
  | .ok _, .error _ => .isFalse (fun hh => Except.noConfusion hh)
  | .error _, .ok _ => .isFalse (fun hh => Except.noConfusion hh)

/-- Truthiness of an optional string exactly as the JavaScript source tests it
(`!x`, `if (x)`): `undefined`, `null` and the empty string are falsy, every
other string is truthy. -/
def strTruthy : Option String → Bool
  | none => false
  | some s => !s.isEmpty

/-- Symbolic model of `createHash('sha256').update(s).digest('hex')`.
SHA-256 is collision resistant (spec 4.2 treats collisions as negligible), so
the digest function is modelled symbolically as an injective tag. -/
def sha256Hex (s : String) : String := "sha256-" ++ s

/-- Magic links live 24 hours (`24 * 60 * 60 * 1000` ms). -/
def magicLinkTtl : Nat := 24 * 60 * 60 * 1000

/-- Refresh sessions live 30 days (`30 * 24 * 60 * 60 * 1000` ms). -/
def refreshTtl : Nat := 30 * 24 * 60 * 60 * 1000

/-- Model of `prisma.user.findUnique({ where: { email } })`. -/
def userByEmail (st : Store) (email : String) : Option User :=
  st.users.find? fun u => u.email == email

/-- Model of `prisma.user.findUnique({ where: { id } })` via a relation
include. -/
def userById (st : Store) (id : String) : Option User :=
  st.users.find? fun u => u.id == id

/-- Model of `prisma.company.findUnique({ where: { id } })`. -/
def companyById (st : Store) (id : String) : Option Company :=
  st.companies.find? fun c => c.id == id

/-- Model of `prisma.magicLink.findUnique({ where: { tokenHash } })`. -/
def linkByHash (st : Store) (h : String) : Option MagicLink :=
  st.magicLinks.find? fun l => l.tokenHash == h

/-- Model of `prisma.authSession.findUnique({ where: { tokenHash } })`. -/
def sessionByHash (st : Store) (h : String) : Option AuthSession :=
  st.sessions.find? fun s => s.tokenHash == h

/-- Result of `AuthService.generateMagicLink`. -/
structure MagicLinkIssue where
  magicLinkId : String
  token : String
  expiresAt : Nat
deriving DecidableEq

/-- `AuthService.generateMagicLink(email)`: look the principal up by email
(404 `USER_NOT_FOUND` if absent), delete the principal's unredeemed magic
links, create a fresh link with a 24-hour expiry, and return the plaintext
token. `freshId` and `freshToken` stand for the fresh id and the
`randomBytes(32)` hex token. -/
def generateMagicLink (st : Store) (now : Nat) (freshId freshToken : String)
    (email : String) : Except ApiErr MagicLinkIssue × Store :=
  match userByEmail st email with
  | none => (.error .USER_NOT_FOUND, st)
  | some user =>
    let tokenHash := sha256Hex freshToken
    let expiresAt := now + magicLinkTtl
    let kept := st.magicLinks.filter fun l => !(l.userId == user.id && l.usedAt == none)
    let newLink : MagicLink :=
      { id := freshId, userId := user.id, tokenHash := tokenHash,
        usedAt := none, expiresAt := expiresAt, createdAt := now }
    (.ok { magicLinkId := freshId, token := freshToken, expiresAt := expiresAt },
     { st with magicLinks := kept ++ [newLink] })

/-- Payload of the short-lived JWT access token built by
`JwtUtils.generateAccessToken`; the signature itself carries no information
the claims need, so only the payload is modelled. The `teamId || undefined`
coercion of the source is kept (`strTruthy`). -/
structure JwtPayload where
  userId : String
  role : Role
  companyId : String
  teamId : Option String
deriving DecidableEq

/-- Result of a successful `AuthService.validateMagicLinkAndCreateSession`. -/
structure RedeemResult where
  userId : String
  userEmail : String
  userRole : Role
  accessToken : JwtPayload
  refreshToken : String
  refreshExpiresAt : Nat
deriving DecidableEq

/-- `AuthService.validateMagicLinkAndCreateSession(token)` (redeem): look the
link up by digest (`INVALID_TOKEN` if absent), reject if
`expiresAt < now` (`EXPIRED_TOKEN`, strict comparison as in the source),
reject if already redeemed (`TOKEN_ALREADY_USED`), otherwise set `usedAt`,
create a 30-day refresh session and return the principal summary with both
credentials. The owning user comes from the relation include; the foreign key
guarantees it exists, so the `INTERNAL_ERROR` branch is unreachable on
well-formed stores. -/
def validateMagicLinkAndCreateSession (st : Store) (now : Nat)
    (freshSessionId freshRefreshToken : String) (token : String) :
    Except ApiErr RedeemResult × Store :=
  match linkByHash st (sha256Hex token) with
  | none => (.error .INVALID_TOKEN, st)
  | some magicLink =>
    if magicLink.expiresAt < now then
      (.error .EXPIRED_TOKEN, st)
    else if magicLink.usedAt.isSome then
      (.error .TOKEN_ALREADY_USED, st)
    else
      match userById st magicLink.userId with
      | none => (.error .INTERNAL_ERROR, st)
      | some user =>
        let marked := st.magicLinks.map fun l =>
          if l.id == magicLink.id then { l with usedAt := some now } else l
        let refreshTokenHash := sha256Hex freshRefreshToken
        let refreshExpiresAt := now + refreshTtl
        let sess : AuthSession :=
          { id := freshSessionId, userId := user.id, tokenHash := refreshTokenHash,
            expiresAt := refreshExpiresAt, createdAt := now }
        (.ok { userId := user.id, userEmail := user.email, userRole := user.role,
               accessToken :=
                 { userId := user.id, role := user.role, companyId := user.companyId,
                   teamId := if strTruthy user.teamId then user.teamId else none },
               refreshToken := freshRefreshToken, refreshExpiresAt := refreshExpiresAt },
         { st with magicLinks := marked, sessions := st.sessions ++ [sess] })

/-- Principal context returned by session validation (`UserSession` in the
source types): id, role, tenant id, team id — deliberately no email. -/
structure UserSession where
  id : String
  role : Role
  companyId : String
  teamId : Option String
deriving DecidableEq

/-- `AuthService.validateSession(sessionToken)`: look the session up by digest
(`INVALID_SESSION` if absent); if expired, delete the session row and fail
`EXPIRED_SESSION`; otherwise return the minimal context built from the
session's user as currently stored (relation include). -/
def validateSession (st : Store) (now : Nat) (sessionToken : String) :
    Except ApiErr UserSession × Store :=
  match sessionByHash st (sha256Hex sessionToken) with
  | none => (.error .INVALID_SESSION, st)
  | some session =>
    if session.expiresAt < now then
      (.error .EXPIRED_SESSION,
       { st with sessions := st.sessions.filter fun s => !(s.id == session.id) })
    else
      match userById st session.userId with
      | none => (.error .INTERNAL_ERROR, st)
      | some user =>
        (.ok { id := user.id, role := user.role, companyId := user.companyId,
               teamId := user.teamId }, st)

/-- `AuthService.revokeSession(sessionToken)`: `deleteMany` by digest —
succeeds whether or not a matching session exists. -/
def revokeSession (st : Store) (sessionToken : String) :
    Except ApiErr Unit × Store :=
  (.ok (),
   { st with
     sessions := st.sessions.filter fun s => !(s.tokenHash == sha256Hex sessionToken) })

/-- `AuthService.revokeAllUserSessions(userId)`: `deleteMany` by owner. -/
def revokeAllUserSessions (st : Store) (userId : String) :
    Except ApiErr Unit × Store :=
  (.ok (), { st with sessions := st.sessions.filter fun s => !(s.userId == userId) })

/-- Result of a successful `AuthService.refreshAccessToken`. -/
structure RefreshResult where
  userId : String
  userEmail : String
  userRole : Role
  accessToken : JwtPayload
deriving DecidableEq

/-- `AuthService.refreshAccessToken(refreshToken)`: look the session up by
digest (`INVALID_REFRESH_TOKEN` if absent); if expired, delete the row and
fail `EXPIRED_REFRESH_TOKEN`; otherwise mint a new access-token payload from
the user as currently stored. -/
def refreshAccessToken (st : Store) (now : Nat) (refreshToken : String) :
    Except ApiErr RefreshResult × Store :=
  match sessionByHash st (sha256Hex refreshToken) with
  | none => (.error .INVALID_REFRESH_TOKEN, st)
  | some session =>
    if session.expiresAt < now then
      (.error .EXPIRED_REFRESH_TOKEN,
       { st with sessions := st.sessions.filter fun s => !(s.id == session.id) })
    else
      match userById st session.userId with
      | none => (.error .INTERNAL_ERROR, st)
      | some user =>
        (.ok { userId := user.id, userEmail := user.email, userRole := user.role,
               accessToken :=
                 { userId := user.id, role := user.role, companyId := user.companyId,
                   teamId := if strTruthy user.teamId then user.teamId else none } },
         st)

/-- Input of `UsersService.createUser` (`CreateUserInput`). -/
structure CreateUserInput where
  email : String
  role : Role
  companyId : String
  teamId : Option String
deriving DecidableEq

/-- Input of `UsersService.updateUser` (`UpdateUserInput`); every field is
optional. `teamId` distinguishes an absent field (`none`, the source's
`undefined`, meaning keep the stored value) from an explicit null
(`some none`). -/
structure UpdateUserInput where
  email : Option String
  role : Option Role
  teamId : Option (Option String)
deriving DecidableEq

/-- Query parameters of `UsersService.listUsers` (`ListUsersQuery`). -/
structure ListUsersQuery where
  page : Nat
  limit : Nat
  role : Option Role
  companyId : Option String
  search : Option String
deriving DecidableEq

/-- A prisma `where` object over the `users` table, as the services build it
field by field. `none` in a field means the filter is absent; for `teamId`
the filtered-for value may itself be null (`some none` filters for
`teamId IS NULL`). -/
structure UserWhere where
  id : Option String
  email : Option String
  companyId : Option String
  teamId : Option (Option String)
  role : Option Role
  search : Option String
deriving DecidableEq

/-- The empty `where` object (`const where: any = \x7b\x7d`). -/
def emptyWhere : UserWhere :=
  { id := none, email := none, companyId := none, teamId := none,
    role := none, search := none }

/-- Case-insensitive substring test, modelling the prisma filter
`email: \x7b contains: search, mode: 'insensitive' \x7d`. -/
def containsInsensitive (hay needle : String) : Bool :=
  needle.isEmpty || ((hay.toLower.splitOn needle.toLower).length > 1)

/-- Row-level meaning of a `UserWhere` object: a conjunction of the present
field filters. -/
def matchesWhere (w : UserWhere) (u : User) : Bool :=
  (match w.id with | none => true | some v => u.id == v) &&
  (match w.email with | none => true | some v => u.email == v) &&
  (match w.companyId with | none => true | some v => u.companyId == v) &&
  (match w.teamId with | none => true | some v => u.teamId == v) &&
  (match w.role with | none => true | some v => u.role == v) &&
  (match w.search with | none => true | some s => containsInsensitive u.email s)

/-- The initial `where` object of the by-id operations (`\x7b id: userId \x7d`). -/
def whereById (uid : String) : UserWhere :=
  { emptyWhere with id := some uid }

/-- The initial `where` object of `getUserByEmail` (`\x7b email \x7d`). -/
def whereByEmail (email : String) : UserWhere :=
  { emptyWhere with email := some email }

/-- The role-restriction block shared by `getUserById`, `getUserByEmail`,
`updateUser` and `deleteUser`: force `companyId` to the requester's tenant,
then for a MANAGER add a `teamId` filter, for a COLLABORATEUR overwrite the
`id` filter with the requester's own id. -/
def restrictWhere (base : UserWhere) (ru : UserSession) : UserWhere :=
  let w := { base with companyId := some ru.companyId }
  match ru.role with
  | .MANAGER => { w with teamId := some ru.teamId }
  | .COLLABORATEUR => { w with id := some ru.id }
  | .ADMIN_RH => w

/-- `UsersService.createUser(data)`: check the company exists
(`COMPANY_NOT_FOUND`), then the role/team business rules (`TEAM_ID_REQUIRED`
for a MANAGER without a truthy team id, `TEAM_ID_NOT_ALLOWED` for an ADMIN_RH
with a truthy team id — JavaScript truthiness, so an empty-string team id
counts as absent), then create the row. The unique-email constraint of the
store surfaces as the 500-class `USER_CREATION_FAILED`. -/
def createUser (st : Store) (now : Nat) (freshId : String)
    (data : CreateUserInput) : Except ApiErr User × Store :=
  match companyById st data.companyId with
  | none => (.error .COMPANY_NOT_FOUND, st)
  | some _ =>
    if data.role == .MANAGER && !(strTruthy data.teamId) then
      (.error .TEAM_ID_REQUIRED, st)
    else if data.role == .ADMIN_RH && strTruthy data.teamId then
      (.error .TEAM_ID_NOT_ALLOWED, st)
    else if st.users.any fun u => u.email == data.email then
      (.error .USER_CREATION_FAILED, st)
    else
      let user : User :=
        { id := freshId, companyId := data.companyId, email := data.email,
          role := data.role, teamId := data.teamId, createdAt := now }
      (.ok user, { st with users := st.users ++ [user] })

/-- `UsersService.getUserById(userId, requestingUser)`: find the unique user
matching `\x7b id, companyId, teamId?, id-overwrite? \x7d` after the role
restriction; returns null rather than an error when nothing matches. -/
def getUserById (st : Store) (userId : String) (ru : UserSession) :
    Option User :=
  st.users.find? (matchesWhere (restrictWhere (whereById userId) ru))

/-- `UsersService.getUserByEmail(email, requestingUser)`: same restriction
applied to an email lookup. -/
def getUserByEmail (st : Store) (email : String) (ru : UserSession) :
    Option User :=
  st.users.find? (matchesWhere (restrictWhere (whereByEmail email) ru))

/-- Insertion into a list kept in descending `createdAt` order (models
`orderBy: \x7b createdAt: 'desc' \x7d`). -/
def insertByCreatedAtDesc (u : User) : List User → List User
  | [] => [u]
  | v :: vs =>
    if v.createdAt ≤ u.createdAt then u :: v :: vs
    else v :: insertByCreatedAtDesc u vs

/-- Sort users by descending creation time. -/
def sortByCreatedAtDesc (l : List User) : List User :=
  l.foldr insertByCreatedAtDesc []

/-- The `where` object `UsersService.listUsers` builds: the tenant filter is
the caller-supplied `query.companyId` when truthy, otherwise the requesting
user's tenant when a requesting user is present; a MANAGER requester adds a
team filter; then the optional role and search filters. -/
def listUsersWhere (q : ListUsersQuery) (ru : Option UserSession) : UserWhere :=
  let w := emptyWhere
  let w :=
    if strTruthy q.companyId then { w with companyId := q.companyId }
    else match ru with
      | some u => { w with companyId := some u.companyId }
      | none => w
  let w :=
    match ru with
    | some u => if u.role == .MANAGER then { w with teamId := some u.teamId } else w
    | none => w
  let w := match q.role with | some r => { w with role := some r } | none => w
  let w := if strTruthy q.search then { w with search := q.search } else w
  w

/-- Paginated response of `listUsers`. -/
structure PaginatedUsers where
  data : List User
  page : Nat
  limit : Nat
  total : Nat
deriving DecidableEq

/-- `UsersService.listUsers(query, requestingUser)`: filter by
`listUsersWhere`, order by descending creation time, then apply
`skip = (page - 1) * limit` and `take = limit`. -/
def listUsers (st : Store) (q : ListUsersQuery) (ru : Option UserSession) :
    PaginatedUsers :=
  let w := listUsersWhere q ru
  let matching := st.users.filter (matchesWhere w)
  let sorted := sortByCreatedAtDesc matching
  let skip := (q.page - 1) * q.limit
  { data := (sorted.drop skip).take q.limit,
    page := q.page, limit := q.limit, total := matching.length }

/-- `UsersService.updateUser(userId, data, requestingUser)`: find the unique
user matching the role-restricted filter (`USER_NOT_FOUND` if none), compute
the effective role (`data.role || existing.role`) and team
(`data.teamId !== undefined ? data.teamId : existing.teamId`), apply the
role/team business rules, then update the matching row, forcing `teamId` to
null for an ADMIN_RH. -/
def updateUser (st : Store) (userId : String) (data : UpdateUserInput)
    (ru : UserSession) : Except ApiErr User × Store :=
  match st.users.find? (matchesWhere (restrictWhere (whereById userId) ru)) with
  | none => (.error .USER_NOT_FOUND, st)
  | some existingUser =>
    let newRole := match data.role with | some r => r | none => existingUser.role
    let newTeamId := match data.teamId with | some t => t | none => existingUser.teamId
    if newRole == .MANAGER && !(strTruthy newTeamId) then
      (.error .TEAM_ID_REQUIRED, st)
    else if newRole == .ADMIN_RH && strTruthy newTeamId then
      (.error .TEAM_ID_NOT_ALLOWED, st)
    else
      let apply := fun (u : User) =>
        { u with
          email := match data.email with | some e => e | none => u.email,
          role := newRole,
          teamId := if newRole == .ADMIN_RH then none else newTeamId }
      (.ok (apply existingUser),
       { st with
         users := st.users.map fun u =>
           if matchesWhere (restrictWhere (whereById userId) ru) u then apply u else u })

/-- `UsersService.deleteUser(userId, requestingUser)`: a COLLABORATEUR is
rejected outright (`UNAUTHORIZED`, 403); otherwise find the unique user
matching the restricted filter (`USER_NOT_FOUND` if none) and delete it; the
schema's `ON DELETE CASCADE` removes the user's magic links and sessions. -/
def deleteUser (st : Store) (userId : String) (ru : UserSession) :
    Except ApiErr Unit × Store :=
  if ru.role == .COLLABORATEUR then (.error .UNAUTHORIZED, st)
  else
    match st.users.find? (matchesWhere (restrictWhere (whereById userId) ru)) with
    | none => (.error .USER_NOT_FOUND, st)
    | some _ =>
      let doomed := st.users.filter (matchesWhere (restrictWhere (whereById userId) ru))
      let gone := fun (uid : String) => doomed.any fun u => u.id == uid
      (.ok (),
       { st with
         users := st.users.filter fun u =>
           !(matchesWhere (restrictWhere (whereById userId) ru) u),
         magicLinks := st.magicLinks.filter fun l => !(gone l.userId),
         sessions := st.sessions.filter fun s => !(gone s.userId) })

/-! ### Concrete fixtures used by witnesses and counterexamples -/

/-- Tenant `acme` of the spec's concrete scenario. -/
def acme : Company :=
  { id := "c1", name := "Acme", domain := "acme.com", createdAt := 0 }

/-- A second tenant, used for cross-tenant scenarios. -/
def globex : Company :=
  { id := "c2", name := "Globex", domain := "globex.com", createdAt := 0 }

/-- The spec's `alice@acme.com`, a COLLABORATEUR of tenant `c1`. -/
def alice : User :=
  { id := "u1", companyId := "c1", email := "alice-at-acme", role := .COLLABORATEUR,
    teamId := none, createdAt := 0 }

/-- An ADMIN_RH of tenant `c1`. -/
def adminA : User :=
  { id := "u2", companyId := "c1", email := "admin-at-acme", role := .ADMIN_RH,
    teamId := none, createdAt := 0 }

/-- A user of the other tenant `c2`. -/
def bob : User :=
  { id := "u3", companyId := "c2", email := "bob-at-globex", role := .COLLABORATEUR,
    teamId := none, createdAt := 5 }

/-- Requesting principal context of `adminA`. -/
def adminASession : UserSession :=
  { id := "u2", role := .ADMIN_RH, companyId := "c1", teamId := none }

/-- Store for the C1 failing input: both tenants, an `acme` admin and a
`globex` user. -/
def c1Store : Store :=
  { companies := [acme, globex], users := [adminA, bob], magicLinks := [], sessions := [] }

/-- Query an `acme` admin may supply: an explicit foreign `companyId`. -/
def c1Query : ListUsersQuery :=
  { page := 1, limit := 10, role := none, companyId := some "c2", search := none }

/-- An unredeemed, unexpired magic link for `alice` whose secret is `tS`. -/
def c2Link : MagicLink :=
  { id := "m1", userId := "u1", tokenHash := sha256Hex "tS", usedAt := none,
    expiresAt := 100, createdAt := 0 }

/-- Store holding `c2Link`. -/
def c2Store : Store :=
  { companies := [acme], users := [alice], magicLinks := [c2Link], sessions := [] }

/-- An unredeemed magic link for `alice` whose secret is `t1`. -/
def c3Link : MagicLink :=
  { id := "m1", userId := "u1", tokenHash := sha256Hex "t1", usedAt := none,
    expiresAt := 100, createdAt := 0 }

/-- Initial store of the C3 scenario. -/
def c3Store0 : Store :=
  { companies := [acme], users := [alice, adminA], magicLinks := [c3Link], sessions := [] }

/-- Store after `alice` redeems `t1` at time 0, obtaining refresh secret
`r1`. -/
def c3StoreAfterRedeem : Store :=
  (validateMagicLinkAndCreateSession c3Store0 0 "s1" "r1" "t1").2

/-- Update promoting `alice` to MANAGER of `team1`. -/
def c3Update : UpdateUserInput :=
  { email := none, role := some .MANAGER, teamId := some (some "team1") }

/-- Store after the admin applies `c3Update` to `alice`. -/
def c3StoreAfterUpdate : Store :=
  (updateUser c3StoreAfterRedeem "u1" c3Update adminASession).2

/-- A magic link that expires exactly at time 100 (secret `t4`). -/
def c4Link : MagicLink :=
  { id := "m4", userId := "u1", tokenHash := sha256Hex "t4", usedAt := none,
    expiresAt := 100, createdAt := 0 }

/-- Store holding `c4Link`. -/
def c4Store : Store :=
  { companies := [acme], users := [alice], magicLinks := [c4Link], sessions := [] }

/-- Store with no magic links, used for the C5 witness. -/
def c5Store : Store :=
  { companies := [acme], users := [alice], magicLinks := [], sessions := [] }

/-- A magic link for `alice` (secret `t6`) that expired at time 100. -/
def c6Link : MagicLink :=
  { id := "m6", userId := "u1", tokenHash := sha256Hex "t6", usedAt := none,
    expiresAt := 100, createdAt := 0 }

/-- Store holding only the expired `c6Link`. -/
def c6LinkStore : Store :=
  { companies := [acme], users := [alice], magicLinks := [c6Link], sessions := [] }

/-- A refresh session for `alice` (secret `r6`) that expired at time 100. -/
def c6Session : AuthSession :=
  { id := "s6", userId := "u1", tokenHash := sha256Hex "r6", expiresAt := 100,
    createdAt := 0 }

/-- Store holding only the expired `c6Session`. -/
def c6SessStore : Store :=
  { companies := [acme], users := [alice], magicLinks := [], sessions := [c6Session] }

/-- Store for the C7 scenarios: just the tenant and `alice`. -/
def c7Store : Store :=
  { companies := [acme], users := [alice], magicLinks := [], sessions := [] }

/-- Create input with role ADMIN_RH and the non-null but empty team id. -/
def c7Input : CreateUserInput :=
  { email := "eve-at-acme", role := .ADMIN_RH, companyId := "c1", teamId := some "" }

/-- An already-redeemed magic link of `alice`. -/
def usedLinkAlice : MagicLink :=
  { id := "m1", userId := "u1", tokenHash := sha256Hex "told", usedAt := some 1,
    expiresAt := 99, createdAt := 0 }

/-- An unredeemed magic link of `bob` (a different principal). -/
def linkBob : MagicLink :=
  { id := "m2", userId := "u3", tokenHash := sha256Hex "tbob", usedAt := none,
    expiresAt := 99, createdAt := 0 }

/-- An unredeemed magic link of `alice`, due to be invalidated. -/
def freshLinkAlice : MagicLink :=
  { id := "m3", userId := "u1", tokenHash := sha256Hex "tfresh", usedAt := none,
    expiresAt := 99, createdAt := 0 }

/-- Store for the C9 witness: a redeemed link of `alice`, a link of `bob`,
and an unredeemed link of `alice`. -/
def c9Store : Store :=
  { companies := [acme, globex], users := [alice, bob],
    magicLinks := [usedLinkAlice, linkBob, freshLinkAlice], sessions := [] }

/-! ### Helper lemmas on `List.find?` and `List.filter` -/

/-- `find?` over a mapped list, when the predicate is insensitive to the
mapping. -/
theorem find?_map_congr {α β : Type} (f : α → β) (p : β → Bool) (q : α → Bool)
    (hpq : ∀ a, p (f a) = q a) :
    ∀ l : List α, (l.map f).find? p = (l.find? q).map f
  | [] => rfl
  | a :: l => by
    simp only [List.map_cons, List.find?]
    rw [hpq a]
    cases hq : q a
    · exact find?_map_congr f p q hpq l
    · rfl

/-- Nothing satisfying `p` survives filtering by `!p`. -/
theorem find?_filter_not_self {α : Type} (p : α → Bool) :
    ∀ l : List α, (l.filter fun a => !(p a)).find? p = none
  | [] => rfl
  | a :: l => by
    cases h : p a <;>
      simp [List.filter_cons, h, List.find?, find?_filter_not_self p l]

/-- Filtering by `!p` twice is the same as filtering once. -/
theorem filter_not_self_idem {α : Type} (p : α → Bool) :
    ∀ l : List α, ((l.filter fun a => !(p a)).filter fun a => !(p a)) =
      l.filter fun a => !(p a)
  | [] => rfl
  | a :: l => by
    cases h : p a <;>
      simp [List.filter_cons, h, filter_not_self_idem p l]

/-- Filtering by `p` after keeping only elements refuting `p` (via any
pointwise-incompatible predicate `q`) leaves nothing. -/
theorem filter_disjoint_filter {α : Type} (p q : α → Bool)
    (hpq : ∀ a, q a = true → p a = false) :
    ∀ l : List α, (l.filter q).filter p = []
  | [] => rfl
  | a :: l => by
    cases hq : q a
    · simp [List.filter_cons, hq, filter_disjoint_filter p q hpq l]
    · simp [List.filter_cons, hq, hpq a hq, filter_disjoint_filter p q hpq l]

/-- Splitting a length by a Boolean predicate. -/
theorem length_filter_add_length_filter_not {α : Type} (p : α → Bool) :
    ∀ l : List α, (l.filter p).length + (l.filter fun a => !(p a)).length = l.length
  | [] => rfl
  | a :: l => by
    have ih := length_filter_add_length_filter_not p l
    cases h : p a <;> simp [List.filter_cons, h] <;> omega

/-- The symbolic digest function is injective (collision resistance of
SHA-256, assumed negligible-failure by the spec). -/
theorem sha256Hex_inj {a b : String} (h : sha256Hex a = sha256Hex b) : a = b := by
  have hd := congrArg String.data h
  simp only [sha256Hex, String.data_append] at hd
  exact String.ext (List.append_cancel_left hd)

/-- Characterization of `generateMagicLink` when the principal exists. -/
theorem generateMagicLink_found (st : Store) (t : Nat) (fid ftok email : String)
    (P : User) (hP : userByEmail st email = some P) :
    generateMagicLink st t fid ftok email =
      (.ok { magicLinkId := fid, token := ftok, expiresAt := t + magicLinkTtl },
       { st with magicLinks :=
           (st.magicLinks.filter fun l => !(l.userId == P.id && l.usedAt == none)) ++
             [{ id := fid, userId := P.id, tokenHash := sha256Hex ftok, usedAt := none,
                expiresAt := t + magicLinkTtl, createdAt := t }] }) := by
  unfold generateMagicLink
  rw [hP]

/-! ### Theorems for the claims -/

/-- C10: requesting a magic link for an email with no matching principal
fails with the not-found error (`USER_NOT_FOUND`) and leaves the store
completely unchanged: the existence check precedes every write. -/
theorem request_unknown_email_leaves_store_unchanged
    (st : Store) (now : Nat) (fid ftok email : String)
    (habsent : userByEmail st email = none) :
    generateMagicLink st now fid ftok email = (.error .USER_NOT_FOUND, st) := by
  unfold generateMagicLink
  rw [habsent]

/-- Witness for C10 at a concrete store: tenant `c1` with `alice`, a stray
magic link and a session, and a request for an unknown email. -/
theorem request_unknown_email_witness :
    generateMagicLink
        { companies := [acme], users := [alice],
          magicLinks := [{ id := "m1", userId := "u1", tokenHash := sha256Hex "t0",
                           usedAt := none, expiresAt := 99, createdAt := 0 }],
          sessions := [{ id := "s1", userId := "u1", tokenHash := sha256Hex "r0",
                         expiresAt := 99, createdAt := 0 }] }
        0 "m2" "t2" "ghost-at-acme" =
      (.error .USER_NOT_FOUND,
       { companies := [acme], users := [alice],
         magicLinks := [{ id := "m1", userId := "u1", tokenHash := sha256Hex "t0",
                          usedAt := none, expiresAt := 99, createdAt := 0 }],
         sessions := [{ id := "s1", userId := "u1", tokenHash := sha256Hex "r0",
                        expiresAt := 99, createdAt := 0 }] }) :=
  request_unknown_email_leaves_store_unchanged _ 0 "m2" "t2" "ghost-at-acme" (by decide)

/-- C8: `revoke(r)` succeeds on every store — also when no session matches
the digest — revoking twice equals revoking once, and after `revoke(r)` every
`validate(r)` fails with `INVALID_SESSION`. -/
theorem revoke_always_ok_then_validate_invalid (st : Store) (r : String) (t : Nat) :
    (revokeSession st r).1 = .ok () ∧
    revokeSession (revokeSession st r).2 r = revokeSession st r ∧
    (validateSession (revokeSession st r).2 t r).1 = .error .INVALID_SESSION := by
  refine ⟨rfl, ?_, ?_⟩
  · unfold revokeSession
    simp only
    rw [filter_not_self_idem (fun s => s.tokenHash == sha256Hex r) st.sessions]
  · unfold revokeSession validateSession sessionByHash
    simp only
    rw [find?_filter_not_self (fun s => s.tokenHash == sha256Hex r) st.sessions]

/-- C1: evaluation of `listUsers` at the failing input. An ADMIN_RH of tenant
`c1` supplies `companyId = "c2"` in the query; the service uses the
caller-supplied tenant filter and returns the `c2` user `bob`, whose tenant
id differs from the requester's — contradicting absolute tenant isolation
(and the repository's own security-testing strategy, which expects a 403
for this request). -/
theorem listUsers_cross_tenant_leak :
    (listUsers c1Store c1Query (some adminASession)).data = [bob] ∧
    bob.companyId ≠ adminASession.companyId := by
  constructor
  · rfl
  · decide

/-- C4 counterexample: for `c4Link`, issued with expiry 100, a redeem attempt
exactly at time 100 succeeds — the claim says any attempt at `t ≥ E` fails
with `TokenExpired` and never succeeds. -/
theorem redeem_at_expiry_boundary_succeeds :
    (validateMagicLinkAndCreateSession c4Store 100 "s4" "r4" "t4").1.isOk = true ∧
    (validateMagicLinkAndCreateSession c4Store 100 "s4" "r4" "t4").1 ≠
      .error .EXPIRED_TOKEN := by
  constructor
  · rfl
  · decide

/-- C4 amended: a redeem attempt at time `t` fails with `EXPIRED_TOKEN`
(leaving the store unchanged) exactly when `t` is strictly past the stored
expiry (`expiresAt < t`); at `t = expiresAt` the expiry check passes and the
outcome is never `EXPIRED_TOKEN`. -/
theorem redeem_expired_iff_strictly_past_expiry
    (st : Store) (t : Nat) (sid rr S : String) (link : MagicLink)
    (hfind : linkByHash st (sha256Hex S) = some link) :
    (link.expiresAt < t →
      validateMagicLinkAndCreateSession st t sid rr S = (.error .EXPIRED_TOKEN, st)) ∧
    (¬ link.expiresAt < t →
      (validateMagicLinkAndCreateSession st t sid rr S).1 ≠ .error .EXPIRED_TOKEN) := by
  constructor
  · intro hlt
    unfold validateMagicLinkAndCreateSession
    rw [hfind]
    simp [hlt]
  · intro hge
    unfold validateMagicLinkAndCreateSession
    rw [hfind]
    simp only [if_neg hge]
    cases hused : link.usedAt.isSome
    · simp only [Bool.false_eq_true, if_neg]
      cases hu : userById st link.userId <;> simp
    · simp

/-- Witness for the amended C4 at `c4Link` (expiry 100): strictly past the
expiry (t = 101) redemption fails `EXPIRED_TOKEN`; at the boundary (t = 100)
it does not. -/
theorem redeem_expired_iff_witness :
    validateMagicLinkAndCreateSession c4Store 101 "s4" "r4" "t4" =
      (.error .EXPIRED_TOKEN, c4Store) ∧
    (validateMagicLinkAndCreateSession c4Store 100 "s4" "r4" "t4").1 ≠
      .error .EXPIRED_TOKEN :=
  ⟨(redeem_expired_iff_strictly_past_expiry c4Store 101 "s4" "r4" "t4" c4Link
      (by decide)).1 (by decide),
   (redeem_expired_iff_strictly_past_expiry c4Store 100 "s4" "r4" "t4" c4Link
      (by decide)).2 (by decide)⟩

/-- C6 counterexample: redeeming the expired `c6Link` at time 200 fails with
the expired-class error but leaves the store completely unchanged — the
expired magic-link row is not deleted, contradicting the claim that every
expiry failure lazily deletes the expired record. -/
theorem redeem_expired_link_not_deleted :
    validateMagicLinkAndCreateSession c6LinkStore 200 "s6" "r6x" "t6" =
      (.error .EXPIRED_TOKEN, c6LinkStore) ∧
    c6LinkStore.magicLinks = [c6Link] := by
  constructor
  · rfl
  · rfl

/-- C6 amended: lazy deletion applies to sessions only. Validating or
refreshing with an expired session fails (`EXPIRED_SESSION` /
`EXPIRED_REFRESH_TOKEN`) and deletes the expired session row as a side
effect, while redeeming an expired magic link fails `EXPIRED_TOKEN` with the
store unchanged (the link is left for the cleanup sweeper). -/
theorem lazy_deletion_applies_to_sessions_only
    (stA : Store) (tA : Nat) (rA : String) (sessA : AuthSession)
    (hA : sessionByHash stA (sha256Hex rA) = some sessA)
    (hAe : sessA.expiresAt < tA)
    (stB : Store) (tB : Nat) (rB : String) (sessB : AuthSession)
    (hB : sessionByHash stB (sha256Hex rB) = some sessB)
    (hBe : sessB.expiresAt < tB)
    (stC : Store) (tC : Nat) (sidC rrC SC : String) (linkC : MagicLink)
    (hC : linkByHash stC (sha256Hex SC) = some linkC)
    (hCe : linkC.expiresAt < tC) :
    validateSession stA tA rA =
      (.error .EXPIRED_SESSION,
       { stA with sessions := stA.sessions.filter fun s => !(s.id == sessA.id) }) ∧
    sessA ∉ (validateSession stA tA rA).2.sessions ∧
    refreshAccessToken stB tB rB =
      (.error .EXPIRED_REFRESH_TOKEN,
       { stB with sessions := stB.sessions.filter fun s => !(s.id == sessB.id) }) ∧
    sessB ∉ (refreshAccessToken stB tB rB).2.sessions ∧
    validateMagicLinkAndCreateSession stC tC sidC rrC SC =
      (.error .EXPIRED_TOKEN, stC) := by
  have hvA : validateSession stA tA rA =
      (.error .EXPIRED_SESSION,
       { stA with sessions := stA.sessions.filter fun s => !(s.id == sessA.id) }) := by
    unfold validateSession
    rw [hA]
    simp [hAe]
  have hvB : refreshAccessToken stB tB rB =
      (.error .EXPIRED_REFRESH_TOKEN,
       { stB with sessions := stB.sessions.filter fun s => !(s.id == sessB.id) }) := by
    unfold refreshAccessToken
    rw [hB]
    simp [hBe]
  refine ⟨hvA, ?_, hvB, ?_, ?_⟩
  · rw [hvA]
    intro hmem
    rw [List.mem_filter] at hmem
    simp at hmem
  · rw [hvB]
    intro hmem
    rw [List.mem_filter] at hmem
    simp at hmem
  · unfold validateMagicLinkAndCreateSession
    rw [hC]
    simp [hCe]

/-- Witness for the amended C6 at concrete stores: an expired session is
deleted by `validate` and by `refresh`, and an expired magic link survives
its failed redemption. -/
theorem lazy_deletion_witness :
    validateSession c6SessStore 200 "r6" =
      (.error .EXPIRED_SESSION,
       { c6SessStore with
         sessions := c6SessStore.sessions.filter fun s => !(s.id == c6Session.id) }) ∧
    validateMagicLinkAndCreateSession c6LinkStore 200 "s6" "r6x" "t6" =
      (.error .EXPIRED_TOKEN, c6LinkStore) := by
  have h := lazy_deletion_applies_to_sessions_only
    c6SessStore 200 "r6" c6Session (by decide) (by decide)
    c6SessStore 200 "r6" c6Session (by decide) (by decide)
    c6LinkStore 200 "s6" "r6x" "t6" c6Link (by decide) (by decide)
  exact ⟨h.1, h.2.2.2.2⟩

/-- C7 counterexample: creating a principal with role ADMIN_RH (the spec's
TENANT_ADMIN) and the non-null team id `some ""` succeeds — the service's
JavaScript truthiness check (`data.teamId`) treats the empty string as
absent, so the row is created with a non-null team id instead of failing
with the role-assignment error. -/
theorem create_admin_with_empty_teamid_succeeds :
    (createUser c7Store 0 "u7" c7Input).1 =
      .ok { id := "u7", companyId := "c1", email := "eve-at-acme",
            role := .ADMIN_RH, teamId := some "", createdAt := 0 } ∧
    (createUser c7Store 0 "u7" c7Input).2.users.length = c7Store.users.length + 1 ∧
    c7Input.teamId ≠ none := by
  refine ⟨rfl, rfl, by decide⟩

/-- C7 amended: with JavaScript truthiness (`strTruthy`, under which the
empty string counts as no team), creating a MANAGER without a truthy team id
fails `TEAM_ID_REQUIRED`, creating an ADMIN_RH with a truthy (non-empty)
team id fails `TEAM_ID_NOT_ALLOWED`, updating a principal to MANAGER with
team id null fails `TEAM_ID_REQUIRED`, and updating to ADMIN_RH with a
non-empty team id fails `TEAM_ID_NOT_ALLOWED` — in every case before any
write: the store is returned unchanged. -/
theorem role_team_rules_checked_before_write
    (stA : Store) (nA : Nat) (fA : String) (dA : CreateUserInput) (cA : Company)
    (hcA : companyById stA dA.companyId = some cA)
    (hrA : dA.role = .MANAGER) (htA : strTruthy dA.teamId = false)
    (stB : Store) (nB : Nat) (fB : String) (dB : CreateUserInput) (cB : Company)
    (hcB : companyById stB dB.companyId = some cB)
    (hrB : dB.role = .ADMIN_RH) (htB : strTruthy dB.teamId = true)
    (stC : Store) (uidC : String) (dC : UpdateUserInput) (ruC : UserSession)
    (exC : User)
    (hxC : stC.users.find?
      (matchesWhere (restrictWhere (whereById uidC) ruC)) = some exC)
    (hrC : dC.role = some .MANAGER) (htC : dC.teamId = some none)
    (stD : Store) (uidD : String) (dD : UpdateUserInput) (ruD : UserSession)
    (exD : User) (tidD : String)
    (hxD : stD.users.find?
      (matchesWhere (restrictWhere (whereById uidD) ruD)) = some exD)
    (hrD : dD.role = some .ADMIN_RH) (htD : dD.teamId = some (some tidD))
    (hne : tidD ≠ "") :
    createUser stA nA fA dA = (.error .TEAM_ID_REQUIRED, stA) ∧
    createUser stB nB fB dB = (.error .TEAM_ID_NOT_ALLOWED, stB) ∧
    updateUser stC uidC dC ruC = (.error .TEAM_ID_REQUIRED, stC) ∧
    updateUser stD uidD dD ruD = (.error .TEAM_ID_NOT_ALLOWED, stD) := by
  refine ⟨?_, ?_, ?_, ?_⟩
  · unfold createUser
    rw [hcA]
    simp [hrA, htA]
  · unfold createUser
    rw [hcB]
    simp [hrB, htB]
  · unfold updateUser
    rw [hxC]
    simp [hrC, htC, strTruthy]
  · have hempty : tidD.isEmpty = false := by
      cases h : tidD.isEmpty
      · rfl
      · exact absurd ((String.isEmpty_iff tidD).mp h) hne
    unfold updateUser
    rw [hxD]
    simp [hrD, htD, strTruthy, hempty]

/-- Witness for the amended C7: concrete creates and updates hitting all four
rejected shapes against `c7Store`. -/
theorem role_team_rules_witness :
    createUser c7Store 0 "u8"
        { email := "m-at-acme", role := .MANAGER, companyId := "c1", teamId := none } =
      (.error .TEAM_ID_REQUIRED, c7Store) ∧
    createUser c7Store 0 "u8"
        { email := "a-at-acme", role := .ADMIN_RH, companyId := "c1",
          teamId := some "team1" } =
      (.error .TEAM_ID_NOT_ALLOWED, c7Store) ∧
    updateUser c7Store "u1"
        { email := none, role := some .MANAGER, teamId := some none } adminASession =
      (.error .TEAM_ID_REQUIRED, c7Store) ∧
    updateUser c7Store "u1"
        { email := none, role := some .ADMIN_RH, teamId := some (some "team1") }
        adminASession =
      (.error .TEAM_ID_NOT_ALLOWED, c7Store) :=
  role_team_rules_checked_before_write
    c7Store 0 "u8"
    { email := "m-at-acme", role := .MANAGER, companyId := "c1", teamId := none }
    acme (by decide) rfl (by decide)
    c7Store 0 "u8"
    { email := "a-at-acme", role := .ADMIN_RH, companyId := "c1", teamId := some "team1" }
    acme (by decide) rfl (by decide)
    c7Store "u1"
    { email := none, role := some .MANAGER, teamId := some none } adminASession
    alice (by decide) rfl rfl
    c7Store "u1"
    { email := none, role := some .ADMIN_RH, teamId := some (some "team1") } adminASession
    alice "team1" (by decide) rfl rfl (by decide)

/-- Characterization of redeem when no stored link matches the digest. -/
theorem redeem_invalid_of_absent (st : Store) (t : Nat) (sid rr S : String)
    (hnone : linkByHash st (sha256Hex S) = none) :
    validateMagicLinkAndCreateSession st t sid rr S = (.error .INVALID_TOKEN, st) := by
  unfold validateMagicLinkAndCreateSession
  rw [hnone]

/-- Characterization of redeem on an unexpired but already-redeemed link. -/
theorem redeem_already_used (st : Store) (t : Nat) (sid rr S : String)
    (link : MagicLink)
    (hfind : linkByHash st (sha256Hex S) = some link)
    (hexp : ¬ link.expiresAt < t) (hused : link.usedAt.isSome = true) :
    validateMagicLinkAndCreateSession st t sid rr S =
      (.error .TOKEN_ALREADY_USED, st) := by
  unfold validateMagicLinkAndCreateSession
  rw [hfind]
  simp [hexp, hused]

/-- C2: for a stored magic link that is unexpired and unredeemed, `redeem(S)`
succeeds, and a second `redeem(S)` performed after the first (at any time not
past the link's expiry) fails with `TOKEN_ALREADY_USED`. -/
theorem redeem_then_redeem_fails_already_used
    (st : Store) (t1 t2 : Nat) (sid1 rr1 sid2 rr2 S : String)
    (link : MagicLink) (u : User)
    (hfind : linkByHash st (sha256Hex S) = some link)
    (hexp1 : ¬ link.expiresAt < t1)
    (hunused : link.usedAt = none)
    (hu : userById st link.userId = some u)
    (hexp2 : ¬ link.expiresAt < t2) :
    (validateMagicLinkAndCreateSession st t1 sid1 rr1 S).1.isOk = true ∧
    (validateMagicLinkAndCreateSession
        (validateMagicLinkAndCreateSession st t1 sid1 rr1 S).2 t2 sid2 rr2 S).1 =
      .error .TOKEN_ALREADY_USED := by
  have hrun1 : validateMagicLinkAndCreateSession st t1 sid1 rr1 S =
      (.ok { userId := u.id, userEmail := u.email, userRole := u.role,
             accessToken :=
               { userId := u.id, role := u.role, companyId := u.companyId,
                 teamId := if strTruthy u.teamId then u.teamId else none },
             refreshToken := rr1, refreshExpiresAt := t1 + refreshTtl },
       { st with
         magicLinks := st.magicLinks.map fun l =>
           if l.id == link.id then { l with usedAt := some t1 } else l,
         sessions := st.sessions ++
           [{ id := sid1, userId := u.id, tokenHash := sha256Hex rr1,
              expiresAt := t1 + refreshTtl, createdAt := t1 }] }) := by
    unfold validateMagicLinkAndCreateSession
    rw [hfind]
    simp [hexp1, hunused, hu]
  have hfind2 : linkByHash (validateMagicLinkAndCreateSession st t1 sid1 rr1 S).2
      (sha256Hex S) = some { link with usedAt := some t1 } := by
    rw [hrun1]
    show (st.magicLinks.map fun l =>
        if l.id == link.id then { l with usedAt := some t1 } else l).find?
        (fun l => l.tokenHash == sha256Hex S) = _
    have hpq : ∀ a : MagicLink,
        ((if a.id == link.id then { a with usedAt := some t1 } else a).tokenHash ==
          sha256Hex S) = (a.tokenHash == sha256Hex S) := by
      intro a
      cases h : a.id == link.id <;> simp [h]
    have hfind' : st.magicLinks.find? (fun l => l.tokenHash == sha256Hex S) = some link :=
      hfind
    rw [find?_map_congr _ _ _ hpq st.magicLinks, hfind']
    simp
  refine ⟨by rw [hrun1]; rfl, ?_⟩
  rw [redeem_already_used ((validateMagicLinkAndCreateSession st t1 sid1 rr1 S).2)
    t2 sid2 rr2 S _ hfind2 hexp2 rfl]

/-- Witness for C2: `alice` redeems `tS` at time 10, then the same secret at
time 20 is rejected as already used. -/
theorem redeem_then_redeem_witness :
    (validateMagicLinkAndCreateSession c2Store 10 "s1" "r1" "tS").1.isOk = true ∧
    (validateMagicLinkAndCreateSession
        (validateMagicLinkAndCreateSession c2Store 10 "s1" "r1" "tS").2 20 "s2" "r2"
        "tS").1 = .error .TOKEN_ALREADY_USED :=
  redeem_then_redeem_fails_already_used c2Store 10 20 "s1" "r1" "s2" "r2" "tS" c2Link alice
    (by decide) (by decide) rfl (by decide) (by decide)

/-- C3 counterexample: `alice` (COLLABORATEUR at session-creation time)
redeems a link at time 0; an admin then promotes her to MANAGER of `team1`;
validating the same refresh secret now returns role MANAGER — not the
creation-time role COLLABORATEUR the claim requires. -/
theorem validate_ignores_creation_time_role :
    (validateMagicLinkAndCreateSession c3Store0 0 "s1" "r1" "t1").1.isOk = true ∧
    (userById c3Store0 "u1").map User.role = some Role.COLLABORATEUR ∧
    (validateSession c3StoreAfterUpdate 50 "r1").1 =
      .ok { id := "u1", role := .MANAGER, companyId := "c1", teamId := some "team1" } ∧
    Role.MANAGER ≠ Role.COLLABORATEUR := by
  refine ⟨rfl, rfl, by decide, by decide⟩

/-- C3 amended: `validate(refreshSecret)` on an unexpired session returns a
context whose role, tenant id and team id are the owning principal's values
as currently stored at validation time (the session row holds only the user
id, so principal changes made after session creation are reflected), and
leaves the store unchanged. -/
theorem validate_returns_current_principal
    (st : Store) (t : Nat) (r : String) (sess : AuthSession) (u : User)
    (hsess : sessionByHash st (sha256Hex r) = some sess)
    (hexp : ¬ sess.expiresAt < t)
    (hu : userById st sess.userId = some u) :
    validateSession st t r =
      (.ok { id := u.id, role := u.role, companyId := u.companyId,
             teamId := u.teamId }, st) := by
  unfold validateSession
  rw [hsess]
  simp [hexp, hu]

/-- Witness for the amended C3 at the concrete scenario store: after the
promotion, validation returns the updated MANAGER context. -/
theorem validate_returns_current_principal_witness :
    validateSession c3StoreAfterUpdate 50 "r1" =
      (.ok { id := "u1", role := .MANAGER, companyId := "c1", teamId := some "team1" },
       c3StoreAfterUpdate) :=
  validate_returns_current_principal c3StoreAfterUpdate 50 "r1"
    { id := "s1", userId := "u1", tokenHash := sha256Hex "r1",
      expiresAt := refreshTtl, createdAt := 0 }
    { id := "u1", companyId := "c1", email := "alice-at-acme", role := .MANAGER,
      teamId := some "team1", createdAt := 0 }
    (by decide) (by decide) (by decide)

/-- C5: after two consecutive `request(P.email)` calls, redeeming the first
issued secret fails with `INVALID_TOKEN` (its row was deleted by the second
request's invalidation step), and at most one unredeemed magic link for `P`
remains in the store. `hfresh` states that the first secret's digest was not
already present (fresh 256-bit randomness), `hs` that the two issued secrets
differ. -/
theorem second_request_invalidates_first_secret
    (st st1 st2 : Store) (t1 t2 t3 : Nat) (id1 id2 sid s1 s2 rr : String)
    (P : User) (r1 r2 : Except ApiErr MagicLinkIssue)
    (hP : userByEmail st P.email = some P)
    (hs : s1 ≠ s2)
    (hfresh : ∀ l ∈ st.magicLinks, l.tokenHash ≠ sha256Hex s1)
    (hrun1 : generateMagicLink st t1 id1 s1 P.email = (r1, st1))
    (hrun2 : generateMagicLink st1 t2 id2 s2 P.email = (r2, st2)) :
    r1.isOk = true ∧ r2.isOk = true ∧
    (validateMagicLinkAndCreateSession st2 t3 sid rr s1).1 = .error .INVALID_TOKEN ∧
    (st2.magicLinks.filter fun l => l.userId == P.id && l.usedAt == none).length ≤ 1 := by
  have e1 := (generateMagicLink_found st t1 id1 s1 P.email P hP).symm.trans hrun1
  injection e1 with er1 est1
  have hP1 : userByEmail st1 P.email = some P := by
    rw [← est1]
    exact hP
  have e2 := (generateMagicLink_found st1 t2 id2 s2 P.email P hP1).symm.trans hrun2
  injection e2 with er2 est2
  have hml2 : st2.magicLinks =
      List.filter (fun l => !(l.userId == P.id && l.usedAt == none))
        (List.filter (fun l => !(l.userId == P.id && l.usedAt == none)) st.magicLinks ++
          [{ id := id1, userId := P.id, tokenHash := sha256Hex s1, usedAt := none,
             expiresAt := t1 + magicLinkTtl, createdAt := t1 }]) ++
        [{ id := id2, userId := P.id, tokenHash := sha256Hex s2, usedAt := none,
           expiresAt := t2 + magicLinkTtl, createdAt := t2 }] := by
    rw [← est2, ← est1]
  refine ⟨by rw [← er1]; rfl, by rw [← er2]; rfl, ?_, ?_⟩
  · have hnone : linkByHash st2 (sha256Hex s1) = none := by
      unfold linkByHash
      rw [hml2]
      apply List.find?_eq_none.mpr
      intro x hx
      simp only [List.mem_append, List.mem_filter, List.mem_singleton] at hx
      rcases hx with ⟨hx, hq⟩ | hx
      · rcases hx with hx | hx
        · have hold := hfresh x hx.1
          simp [beq_eq_false_iff_ne.mpr hold]
        · subst hx
          simp at hq
      · subst hx
        intro hbeq
        exact hs (sha256Hex_inj (beq_iff_eq.mp hbeq)).symm
    rw [redeem_invalid_of_absent st2 t3 sid rr s1 hnone]
  · have hnil := @filter_disjoint_filter MagicLink
      (fun l => l.userId == P.id && l.usedAt == none)
      (fun l => !(l.userId == P.id && l.usedAt == none))
      (by
        intro a ha
        cases hpa : (a.userId == P.id && a.usedAt == none) <;> simp_all)
      (List.filter (fun l => !(l.userId == P.id && l.usedAt == none)) st.magicLinks ++
        [{ id := id1, userId := P.id, tokenHash := sha256Hex s1, usedAt := none,
           expiresAt := t1 + magicLinkTtl, createdAt := t1 }])
    rw [hml2, List.filter_append, hnil]
    simp

/-- Witness for C5: two requests for `alice` on an empty-link store, then a
failed redeem of the first secret. -/
theorem second_request_witness :
    (generateMagicLink c5Store 0 "mA" "sA" alice.email).1.isOk = true ∧
    (generateMagicLink (generateMagicLink c5Store 0 "mA" "sA" alice.email).2 1 "mB" "sB"
        alice.email).1.isOk = true ∧
    (validateMagicLinkAndCreateSession
        (generateMagicLink (generateMagicLink c5Store 0 "mA" "sA" alice.email).2 1 "mB"
            "sB" alice.email).2 2 "sid" "rr" "sA").1 = .error .INVALID_TOKEN ∧
    ((generateMagicLink (generateMagicLink c5Store 0 "mA" "sA" alice.email).2 1 "mB" "sB"
        alice.email).2.magicLinks.filter
      fun l => l.userId == alice.id && l.usedAt == none).length ≤ 1 :=
  second_request_invalidates_first_secret c5Store _ _ 0 1 2 "mA" "mB" "sid" "sA" "sB" "rr"
    alice _ _ (by decide) (by decide) (by decide) rfl rfl

/-- C9: a successful `request(email)` deletes only the target principal's
unredeemed magic links: every already-redeemed link and every link owned by
another principal survives, anything deleted was the target's and
unredeemed, exactly one new row appears (net count), and the sessions and
users tables are untouched. -/
theorem request_deletes_only_own_unredeemed
    (st : Store) (now : Nat) (fid ftok email : String) (u : User)
    (hP : userByEmail st email = some u) :
    (∀ l ∈ st.magicLinks, l.usedAt ≠ none →
        l ∈ (generateMagicLink st now fid ftok email).2.magicLinks) ∧
    (∀ l ∈ st.magicLinks, l.userId ≠ u.id →
        l ∈ (generateMagicLink st now fid ftok email).2.magicLinks) ∧
    (∀ l ∈ st.magicLinks, l ∉ (generateMagicLink st now fid ftok email).2.magicLinks →
        l.userId = u.id ∧ l.usedAt = none) ∧
    ({ id := fid, userId := u.id, tokenHash := sha256Hex ftok, usedAt := none,
       expiresAt := now + magicLinkTtl, createdAt := now } : MagicLink) ∈
      (generateMagicLink st now fid ftok email).2.magicLinks ∧
    (generateMagicLink st now fid ftok email).2.magicLinks.length +
        (st.magicLinks.filter fun l => l.userId == u.id && l.usedAt == none).length =
      st.magicLinks.length + 1 ∧
    (generateMagicLink st now fid ftok email).2.sessions = st.sessions ∧
    (generateMagicLink st now fid ftok email).2.users = st.users := by
  rw [generateMagicLink_found st now fid ftok email u hP]
  dsimp only
  refine ⟨?_, ?_, ?_, ?_, ?_, rfl, rfl⟩
  · intro l hl hused
    refine List.mem_append_left _ (List.mem_filter.mpr ⟨hl, ?_⟩)
    simp [beq_eq_false_iff_ne.mpr hused]
  · intro l hl howner
    refine List.mem_append_left _ (List.mem_filter.mpr ⟨hl, ?_⟩)
    simp [beq_eq_false_iff_ne.mpr howner]
  · intro l hl hnot
    constructor
    · by_contra hne
      exact hnot (List.mem_append_left _
        (List.mem_filter.mpr ⟨hl, by simp [beq_eq_false_iff_ne.mpr hne]⟩))
    · by_contra hne
      exact hnot (List.mem_append_left _
        (List.mem_filter.mpr ⟨hl, by simp [beq_eq_false_iff_ne.mpr hne]⟩))
  · exact List.mem_append_right _ (List.mem_singleton.mpr rfl)
  · have hsplit := length_filter_add_length_filter_not
      (fun l => l.userId == u.id && l.usedAt == none) st.magicLinks
    simp only [List.length_append, List.length_singleton]
    omega

/-- Witness for C9 on `c9Store`: the redeemed link of `alice` and the link of
`bob` both survive her new request, and the link count reflects exactly one
creation net of the invalidated links. -/
theorem request_frame_witness :
    usedLinkAlice ∈ (generateMagicLink c9Store 7 "m9" "t9" "alice-at-acme").2.magicLinks ∧
    linkBob ∈ (generateMagicLink c9Store 7 "m9" "t9" "alice-at-acme").2.magicLinks ∧
    (generateMagicLink c9Store 7 "m9" "t9" "alice-at-acme").2.magicLinks.length +
        (c9Store.magicLinks.filter
          fun l => l.userId == alice.id && l.usedAt == none).length =
      c9Store.magicLinks.length + 1 :=
  ⟨(request_deletes_only_own_unredeemed c9Store 7 "m9" "t9" "alice-at-acme" alice
      (by decide)).1 usedLinkAlice (by decide) (by decide),
   (request_deletes_only_own_unredeemed c9Store 7 "m9" "t9" "alice-at-acme" alice
      (by decide)).2.1 linkBob (by decide) (by decide),
   (request_deletes_only_own_unredeemed c9Store 7 "m9" "t9" "alice-at-acme" alice
      (by decide)).2.2.2.2.1⟩

end OnboardingReboot
